import Mathlib

/-!
Shallow embedding of the softex-lab contact backend (Go) for specification
checking.  Strings are modelled as lists of Unicode code points (`List Char`);
Go `len` on strings is modelled by `byteLen`, the UTF-8 byte count.  Time is
modelled in nanoseconds (`Nat`), matching Go `time.Duration` arithmetic.
The repository contains two concatenated historical versions of
`api/contact.go`; the definitions below embed the current (first) version,
plus the legacy `main.go` dev-server handler and the Slack notifier.
-/

/-- Unicode code point of a character, as a natural number. -/
def charCode (c : Char) : Nat := c.toNat

/-- UTF-8 encoded size of one character, in bytes (Go strings are UTF-8). -/
def charUtf8Size (c : Char) : Nat :=
  if charCode c < 128 then 1
  else if charCode c < 2048 then 2
  else if charCode c < 65536 then 3
  else 4

/-- Go `len(s)` for a string: number of UTF-8 bytes. -/
def byteLen (l : List Char) : Nat := (l.map charUtf8Size).sum

/-- Characters replaced by Go `html.EscapeString`. -/
def isHtmlMeta (c : Char) : Bool :=
  charCode c = 38 || charCode c = 39 || charCode c = 60 || charCode c = 62 || charCode c = 34

/-- Replacement performed by Go `html.EscapeString` on one character:
ampersand, apostrophe, less-than, greater-than and double quote are rewritten
to their HTML entities; every other character is kept. -/
def escapeChar (c : Char) : List Char :=
  if charCode c = 38 then "&amp;".data
  else if charCode c = 39 then "&#39;".data
  else if charCode c = 60 then "&lt;".data
  else if charCode c = 62 then "&gt;".data
  else if charCode c = 34 then "&#34;".data
  else [c]

/-- Go `html.EscapeString`. -/
def htmlEscapeString (l : List Char) : List Char := (l.map escapeChar).flatten

/-- Go `unicode.IsSpace`: the Unicode white-space code points. -/
def isGoSpace (c : Char) : Bool :=
  charCode c = 9 || charCode c = 10 || charCode c = 11 || charCode c = 12 ||
  charCode c = 13 || charCode c = 32 || charCode c = 133 || charCode c = 160 ||
  charCode c = 5760 || (8192 ≤ charCode c && charCode c ≤ 8202) ||
  charCode c = 8232 || charCode c = 8233 || charCode c = 8239 ||
  charCode c = 8287 || charCode c = 12288

/-- Go `strings.TrimSpace`: drop white space from both ends. -/
def trimSpace (l : List Char) : List Char :=
  ((l.dropWhile isGoSpace).reverse.dropWhile isGoSpace).reverse

/-- Characters matched by the Go regular expression class of control
characters used in `sanitizeInput`: code points 0 to 31 and 127. -/
def isCtl (c : Char) : Bool := charCode c ≤ 31 || charCode c = 127

/-- Removal of control characters, as done by the regexp replace in
`sanitizeInput` (UTF-8 bytes below 0x20 and 0x7f only occur as whole
ASCII characters, so byte-level removal equals code-point-level removal). -/
def removeCtl (l : List Char) : List Char := l.filter (fun c => !(isCtl c))

/-- Go `sanitizeInput`: HTML-escape, trim surrounding white space, then
strip control characters, in that order (api/contact.go). -/
def sanitizeInput (l : List Char) : List Char :=
  removeCtl (trimSpace (htmlEscapeString l))

/-- Form data decoded from the request body (api/contact.go `ContactData`). -/
structure ContactData where
  Name : List Char
  Email : List Char
  Message : List Char
deriving DecidableEq

/-- Validation limits from api/contact.go. -/
def MaxNameLength : Nat := 100

/-- Maximum email length in bytes (api/contact.go). -/
def MaxEmailLength : Nat := 254

/-- Maximum message length in bytes (api/contact.go). -/
def MaxMessageLength : Nat := 2000

/-- Minimum message length in bytes (api/contact.go). -/
def MinMessageLength : Nat := 10

/-- ASCII lower or upper case letter. -/
def isAsciiAlpha (c : Char) : Bool :=
  (97 ≤ charCode c && charCode c ≤ 122) || (65 ≤ charCode c && charCode c ≤ 90)

/-- ASCII digit. -/
def isAsciiDigit (c : Char) : Bool := 48 ≤ charCode c && charCode c ≤ 57

/-- White space class of the RE2 regexp escape used in the name pattern:
tab, newline, form feed, carriage return and space. -/
def isRegexSpace (c : Char) : Bool :=
  charCode c = 9 || charCode c = 10 || charCode c = 12 || charCode c = 13 ||
  charCode c = 32

/-- Character class of the name pattern: ASCII letters, the listed accented
Spanish letters, and white space. -/
def isNameChar (c : Char) : Bool :=
  isAsciiAlpha c || "áéíóúÁÉÍÓÚñÑ".data.contains c || isRegexSpace c

/-- Character class of the local part of `emailRegex`. -/
def isLocalChar (c : Char) : Bool :=
  isAsciiAlpha c || isAsciiDigit c || charCode c = 46 || charCode c = 95 ||
  charCode c = 37 || charCode c = 43 || charCode c = 45

/-- Character class of the domain part of `emailRegex`. -/
def isDomainChar (c : Char) : Bool :=
  isAsciiAlpha c || isAsciiDigit c || charCode c = 46 || charCode c = 45

/-- Match of the anchored email regular expression of api/contact.go: a
non-empty local part, an at sign, a non-empty domain part, a dot, and a
top-level domain of at least two ASCII letters.  The two `any` loops realise
the existential choice of the positions of the at sign and of the final dot. -/
def emailMatch (l : List Char) : Bool :=
  (List.range l.length).any fun i =>
    (List.range l.length).any fun j =>
      decide (i < j) &&
      decide (l[i]? = some (Char.ofNat 64)) &&
      decide (l[j]? = some (Char.ofNat 46)) &&
      decide (l.take i ≠ []) && (l.take i).all isLocalChar &&
      decide ((l.drop (i+1)).take (j - i - 1) ≠ []) &&
      ((l.drop (i+1)).take (j - i - 1)).all isDomainChar &&
      decide (2 ≤ (l.drop (j+1)).length) && (l.drop (j+1)).all isAsciiAlpha

/-- Sanitization pass of `validateContactData`, which overwrites the three
fields in place before checking them. -/
def sanitizeData (d : ContactData) : ContactData :=
  ⟨sanitizeInput d.Name, sanitizeInput d.Email, sanitizeInput d.Message⟩

/-- Go `validateContactData` (api/contact.go, current version): sanitize the
fields, then check name, email and message in order; `some msg` is the error
returned, `none` means the data is valid.  The sanitized data itself is
`sanitizeData d`, matching the in-place mutation in Go. -/
def validateContactData (d : ContactData) : Option String :=
  if (sanitizeData d).Name = [] then some "el nombre es obligatorio"
  else if MaxNameLength < byteLen (sanitizeData d).Name then
    some "el nombre no puede exceder 100 caracteres"
  else if !((sanitizeData d).Name.all isNameChar) then
    some "el nombre solo puede contener letras y espacios"
  else if (sanitizeData d).Email = [] then some "el correo electrónico es obligatorio"
  else if MaxEmailLength < byteLen (sanitizeData d).Email then
    some "el correo electrónico no puede exceder 254 caracteres"
  else if !(emailMatch (sanitizeData d).Email) then
    some "el formato del correo electrónico no es válido"
  else if (sanitizeData d).Message = [] then some "el mensaje es obligatorio"
  else if byteLen (sanitizeData d).Message < MinMessageLength then
    some "el mensaje debe tener al menos 10 caracteres"
  else if MaxMessageLength < byteLen (sanitizeData d).Message then
    some "el mensaje no puede exceder 2000 caracteres"
  else none

/-- Per-IP rate limiter entry (api/contact.go, current version). -/
structure RequestInfo where
  count : Nat
  lastSeen : Nat
  blocked : Bool
deriving DecidableEq

/-- The visitors map of the rate limiter. -/
def RateState : Type := String → Option RequestInfo

/-- One nanosecond-denominated minute, as in Go `time.Minute`. -/
def minuteNs : Nat := 60000000000

/-- Requests allowed per window (api/contact.go, current version). -/
def rateLimit : Nat := 3

/-- Rate-limit window: five minutes (api/contact.go, current version). -/
def timeWindow : Nat := 5 * minuteNs

/-- Block duration after exceeding the limit: fifteen minutes. -/
def blockDuration : Nat := 15 * minuteNs

/-- Pointwise update of the visitors map. -/
def RateState.insert (st : RateState) (ip : String) (v : RequestInfo) : RateState :=
  fun k => if k = ip then some v else st k

/-- Error returned to a blocked IP. -/
def blockedMsg : String :=
  "IP bloqueada temporalmente por exceder el límite de solicitudes"

/-- Error returned when the request count exceeds the limit. -/
def limitMsg : String :=
  "has excedido el límite de solicitudes. Intenta de nuevo en 15 minutos"

/-- Go `checkRateLimit` (api/contact.go, current version), embedded as an
atomic transition: the whole function body runs under one mutex, so it is one
step from the old map to the new map plus an optional error.  `now` plays the
role of `time.Now()`; `now - v.lastSeen` is `time.Since(v.lastSeen)`.  The
two branches of the in-place update (reset after an elapsed window, or
increment) are inlined, each followed by the `lastSeen` overwrite and the
limit check of the Go code. -/
def checkRateLimit (st : RateState) (clientIP : String) (now : Nat) :
    RateState × Option String :=
  match st clientIP with
  | none => (st.insert clientIP ⟨1, now, false⟩, none)
  | some v =>
    if v.blocked ∧ now - v.lastSeen < blockDuration then
      (st, some blockedMsg)
    else if timeWindow < now - v.lastSeen then
      if rateLimit < 1 then (st.insert clientIP ⟨1, now, true⟩, some limitMsg)
      else (st.insert clientIP ⟨1, now, false⟩, none)
    else
      if rateLimit < v.count + 1 then
        (st.insert clientIP ⟨v.count + 1, now, true⟩, some limitMsg)
      else (st.insert clientIP ⟨v.count + 1, now, v.blocked⟩, none)

/-- SMTP configuration (api/contact.go `SmtpConfig`). -/
structure SmtpConfig where
  Host : String
  Port : String
  User : String
  Pass : String
  ToEmail : String
deriving DecidableEq

/-- Go `newSmtpConfig` (api/contact.go, current version): reads the five
environment variables; the four SMTP variables are required, `TO_EMAIL`
defaults to the fixed destination address when empty. -/
def newSmtpConfig (env : String → String) : Except String SmtpConfig :=
  let config : SmtpConfig :=
    ⟨env "SMTP_HOST", env "SMTP_PORT", env "SMTP_USER", env "SMTP_PASS",
     env "TO_EMAIL"⟩
  if config.Host = "" ∨ config.Port = "" ∨ config.User = "" ∨ config.Pass = "" then
    .error "error de configuración del servidor para enviar el correo. Contacte al administrador"
  else if config.ToEmail = "" then
    .ok ⟨config.Host, config.Port, config.User, config.Pass, "contacto@softex-labs.xyz"⟩
  else .ok config

/-- JSON values, restricted to the shapes the backend emits. -/
inductive Json where
  | str : String → Json
  | num : Nat → Json
  | obj : List (String × Json) → Json

/-- Field lookup in a JSON object. -/
def Json.lookup : Json → String → Option Json
  | .obj fields, k => fields.lookup k
  | _, _ => none

/-- Go `sendJSONError` of api/contact.go (current version): the encoded map
has the three keys error, status and timestamp; `encoding/json` serialises Go
maps with the keys in sorted order.  `ts` stands for the formatted
`time.Now()` value. -/
def sendJSONError (message : String) (status : Nat) (ts : String) : Json :=
  .obj [("error", .str message), ("status", .num status), ("timestamp", .str ts)]

/-- Go `sendJSONSuccess` of api/contact.go (current version). -/
def sendJSONSuccess (message : String) (ts : String) : Json :=
  .obj [("message", .str message), ("status", .num 200), ("timestamp", .str ts)]

/-- An incoming HTTP request, reduced to what the contact handler inspects:
the method, the Origin header (empty when absent), the decode result of the
JSON body (`none` models a body `json.Decoder` rejects), and the client IP
already extracted by `getClientIP`. -/
structure Request where
  method : String
  origin : String
  body : Option ContactData
  clientIP : String

/-- Outcome of one run of the contact handler: HTTP status, response body
(`none` for the body-less preflight reply), the contact data handed to
`sendEmail` (`none` when `smtp.SendMail` is never reached), and the rate
limiter map after the run. -/
structure HandlerResult where
  status : Nat
  body : Option Json
  emailData : Option ContactData
  state : RateState

/-- The allowed CORS origin: the environment variable, with the production
domain as fallback. -/
def allowedOriginOf (env : String → String) : String :=
  if env "ALLOWED_ORIGIN" = "" then "https://softex-labs.xyz" else env "ALLOWED_ORIGIN"

/-- Go `Handler` of api/contact.go (current version), embedded as a function
of the environment, the rate-limiter state, the clock, the formatted
timestamp used in JSON bodies, the request, and the outcome of the SMTP
delivery attempt (`smtpSendOk = false` models `smtp.SendMail` failing). -/
def Handler (env : String → String) (st : RateState) (now : Nat) (ts : String)
    (req : Request) (smtpSendOk : Bool) : HandlerResult :=
  if req.method ≠ "OPTIONS" ∧ req.origin ≠ "" ∧ req.origin ≠ allowedOriginOf env ∧
      allowedOriginOf env ≠ "*" then
    ⟨403, some (sendJSONError "Origen no permitido" 403 ts), none, st⟩
  else if req.method = "OPTIONS" then ⟨200, none, none, st⟩
  else
    match (checkRateLimit st req.clientIP now).2 with
    | some msg =>
      ⟨429, some (sendJSONError msg 429 ts), none,
       (checkRateLimit st req.clientIP now).1⟩
    | none =>
      if req.method ≠ "POST" then
        ⟨405, some (sendJSONError "Método no permitido. Solo se acepta POST." 405 ts),
         none, (checkRateLimit st req.clientIP now).1⟩
      else
        match req.body with
        | none =>
          ⟨400, some (sendJSONError
            "error al decodificar la solicitud JSON. Asegúrese de que el formato sea correcto"
            400 ts), none, (checkRateLimit st req.clientIP now).1⟩
        | some raw =>
          match validateContactData raw with
          | some e =>
            ⟨400, some (sendJSONError e 400 ts), none,
             (checkRateLimit st req.clientIP now).1⟩
          | none =>
            match newSmtpConfig env with
            | .error e =>
              ⟨500, some (sendJSONError e 500 ts), none,
               (checkRateLimit st req.clientIP now).1⟩
            | .ok _ =>
              if smtpSendOk then
                ⟨200, some (sendJSONSuccess
                  "¡Mensaje enviado con éxito! Te responderemos pronto." ts),
                 some (sanitizeData raw), (checkRateLimit st req.clientIP now).1⟩
              else
                ⟨500, some (sendJSONError
                  "no se pudo enviar el correo. Por favor, inténtalo de nuevo más tarde"
                  500 ts), some (sanitizeData raw), (checkRateLimit st req.clientIP now).1⟩

namespace MainGo

/-- Go `sendJSONError` of main.go: the body is exactly the one-key object. -/
def sendJSONError (message : String) : Json := .obj [("error", .str message)]

/-- An incoming request as main.go `contactHandler` sees it: the method,
whether `net.SplitHostPort` succeeds on the peer address, whether
`ParseForm` succeeds, and the three form values. -/
structure FormRequest where
  method : String
  remoteAddrValid : Bool
  formValid : Bool
  name : String
  email : String
  message : String

/-- Go `contactHandler` of main.go (legacy dev server for /api/contact),
as a function of the request, the token-bucket decision for the client IP
(`limiterAllow` models `limiter.Allow()`), whether the four SMTP environment
variables are all set, and the SMTP delivery outcome.  Returns the HTTP
status and the response body. -/
def contactHandler (req : FormRequest) (limiterAllow : Bool)
    (smtpConfigured : Bool) (smtpSendOk : Bool) : Nat × Json :=
  if !req.remoteAddrValid then
    (500, sendJSONError "Error al identificar la dirección IP.")
  else if req.method ≠ "POST" then
    (405, sendJSONError "Método no permitido. Solo se acepta POST.")
  else if !req.formValid then
    (400, sendJSONError "Error al procesar el formulario.")
  else if !limiterAllow then
    (429, sendJSONError "Has enviado demasiadas solicitudes. Por favor, espera un momento.")
  else if req.name = "" ∨ req.email = "" ∨ req.message = "" then
    (400, sendJSONError "Todos los campos (nombre, email, mensaje) son obligatorios.")
  else if !smtpConfigured then
    (500, sendJSONError "Error de configuración del servidor para enviar el correo.")
  else if !smtpSendOk then
    (500, sendJSONError "Hubo un error interno al intentar enviar el correo.")
  else
    (200, .obj [("message", .str "¡Mensaje enviado con éxito!")])

end MainGo

/-- A field of a Slack attachment (unnamed Go notification file). -/
structure SlackField where
  title : String
  value : List Char
  short : Bool
deriving DecidableEq

/-- A Slack attachment (unnamed Go notification file). -/
structure SlackAttachment where
  color : String
  title : String
  text : String
  fields : List SlackField
  ts : Nat
deriving DecidableEq

/-- The Slack webhook payload (unnamed Go notification file). -/
structure SlackMessage where
  channel : String
  username : String
  iconEmoji : String
  attachments : List SlackAttachment
deriving DecidableEq

/-- The outbound HTTP effect of `sendSlackNotification`: either no request
is issued, or one POST of the JSON-marshalled payload to the webhook URL
with the given content type. -/
inductive SlackAction where
  | noop : SlackAction
  | post : String → String → SlackMessage → SlackAction
deriving DecidableEq

/-- Go `sendSlackNotification` (unnamed notification file): reads
`SLACK_WEBHOOK_URL`; when it is empty the feature is disabled and the
function returns nil without any request; otherwise it builds the payload
and POSTs it.  `nowFmt` and `nowUnix` stand for the formatted and the Unix
`time.Now()` values; `postOutcome` is the transport result of `http.Post`
(`.error e` a transport error, `.ok code` a response with that status; the
Go code returns its nil `err` even when the status is not 200, so only a
transport error is propagated).  Returns the effect and the error value. -/
def sendSlackNotification (env : String → String) (data : ContactData)
    (clientIP : String) (nowFmt : String) (nowUnix : Nat)
    (postOutcome : Except String Nat) : SlackAction × Option String :=
  let webhookURL := env "SLACK_WEBHOOK_URL"
  if webhookURL = "" then (.noop, none)
  else
    let message : SlackMessage :=
      ⟨"#contacto", "Softex Labs Bot", ":email:",
       [⟨"good", "Nuevo mensaje de contacto",
         "Se ha recibido un nuevo mensaje desde el sitio web",
         [⟨"Nombre", data.Name, true⟩,
          ⟨"Email", data.Email, true⟩,
          ⟨"IP", clientIP.data, true⟩,
          ⟨"Fecha", nowFmt.data, true⟩,
          ⟨"Mensaje", data.Message, false⟩],
         nowUnix⟩]⟩
    match postOutcome with
    | .error e => (.post webhookURL "application/json" message, some e)
    | .ok _ => (.post webhookURL "application/json" message, none)

/-! Helper lemmas about the sanitizer. -/

theorem escapeChar_eq_self {c : Char} (h : isHtmlMeta c = false) :
    escapeChar c = [c] := by
  simp only [isHtmlMeta, Bool.or_eq_false_iff, decide_eq_false_iff_not] at h
  obtain ⟨⟨⟨⟨h1, h2⟩, h3⟩, h4⟩, h5⟩ := h
  simp [escapeChar, h1, h2, h3, h4, h5]

theorem htmlEscapeString_eq_self {l : List Char}
    (h : ∀ c ∈ l, isHtmlMeta c = false) : htmlEscapeString l = l := by
  induction l with
  | nil => rfl
  | cons a t ih =>
    have ha : escapeChar a = [a] := escapeChar_eq_self (h a (by simp))
    have ht := ih (fun c hc => h c (by simp [hc]))
    simp only [htmlEscapeString, List.map_cons, List.flatten_cons] at ht ⊢
    rw [ha, ht]
    rfl

theorem removeCtl_eq_self {l : List Char} (h : ∀ c ∈ l, isCtl c = false) :
    removeCtl l = l :=
  List.filter_eq_self.mpr fun a ha => by simp [h a ha]

theorem trimSpace_subset (l : List Char) : trimSpace l ⊆ l := by
  intro a ha
  simp only [trimSpace, List.mem_reverse] at ha
  have h1 := List.dropWhile_subset (l := (l.dropWhile isGoSpace).reverse) isGoSpace ha
  simp only [List.mem_reverse] at h1
  exact List.dropWhile_subset isGoSpace h1

theorem dropWhile_idem (p : α → Bool) (l : List α) :
    (l.dropWhile p).dropWhile p = l.dropWhile p := by
  induction l with
  | nil => rfl
  | cons a t ih =>
    cases hpa : p a with
    | true => simp [List.dropWhile_cons, hpa, ih]
    | false => simp [List.dropWhile_cons, hpa]

theorem dropWhile_rightTrim (p : α → Bool) (l : List α) (h : l.dropWhile p = l) :
    ((l.reverse.dropWhile p).reverse).dropWhile p = (l.reverse.dropWhile p).reverse := by
  cases l with
  | nil => rfl
  | cons a t =>
    have hpa : p a = false := by
      cases hpa : p a with
      | false => rfl
      | true =>
        exfalso
        rw [List.dropWhile_cons_of_pos hpa] at h
        have hlen := congrArg List.length h
        have hle := (List.dropWhile_sublist (l := t) p).length_le
        simp at hlen
        omega
    rw [List.reverse_cons, List.dropWhile_append]
    by_cases he : (t.reverse.dropWhile p).isEmpty
    · simp [he, List.dropWhile_cons, hpa]
    · rw [if_neg he, List.reverse_append]
      simp [List.dropWhile_cons, hpa]

theorem trimSpace_idem (l : List Char) : trimSpace (trimSpace l) = trimSpace l := by
  have hA : (trimSpace l).dropWhile isGoSpace = trimSpace l := by
    simp only [trimSpace]
    exact dropWhile_rightTrim _ _ (dropWhile_idem _ _)
  have hB : (trimSpace l).reverse.dropWhile isGoSpace = (trimSpace l).reverse := by
    simp only [trimSpace, List.reverse_reverse]
    exact dropWhile_idem _ _
  show ((((trimSpace l).dropWhile isGoSpace).reverse).dropWhile isGoSpace).reverse = trimSpace l
  rw [hA, hB, List.reverse_reverse]

theorem sanitizeInput_eq_trim {l : List Char}
    (h : ∀ c ∈ l, isHtmlMeta c = false ∧ isCtl c = false) :
    sanitizeInput l = trimSpace l := by
  unfold sanitizeInput
  rw [htmlEscapeString_eq_self (fun c hc => (h c hc).1)]
  exact removeCtl_eq_self (fun c hc => (h c (trimSpace_subset l hc)).2)

/-- C2 counterexample: `sanitizeInput` is not idempotent on the one-character
string containing a less-than sign, an HTML metacharacter: the first pass
yields the four characters of the lt entity, whose ampersand the second pass
escapes again. -/
theorem sanitizeInput_not_idempotent_on_lt :
    sanitizeInput (sanitizeInput "<".data) ≠ sanitizeInput "<".data := by decide

/-- C2 amended: `sanitizeInput` is idempotent on every string that contains
no HTML metacharacter and no control character; on strings containing HTML
metacharacters it is not idempotent, since the entities produced by the
escaping pass are escaped again. -/
theorem sanitizeInput_idem_of_clean {l : List Char}
    (h : ∀ c ∈ l, isHtmlMeta c = false ∧ isCtl c = false) :
    sanitizeInput (sanitizeInput l) = sanitizeInput l := by
  have h' : ∀ c ∈ trimSpace l, isHtmlMeta c = false ∧ isCtl c = false :=
    fun c hc => h c (trimSpace_subset l hc)
  rw [sanitizeInput_eq_trim h, sanitizeInput_eq_trim h', trimSpace_idem]

/-- Witness for the amended C2 theorem at a concrete clean string. -/
theorem sanitizeInput_idem_of_clean_witness :
    sanitizeInput (sanitizeInput " hola mundo ".data) = sanitizeInput " hola mundo ".data :=
  sanitizeInput_idem_of_clean (by decide)

/-- C10: when the four SMTP variables are non-empty and `TO_EMAIL` is empty,
`newSmtpConfig` succeeds and the destination defaults to the fixed address,
so `TO_EMAIL` is not a required variable. -/
theorem newSmtpConfig_toEmail_fallback (env : String → String)
    (h1 : env "SMTP_HOST" ≠ "") (h2 : env "SMTP_PORT" ≠ "")
    (h3 : env "SMTP_USER" ≠ "") (h4 : env "SMTP_PASS" ≠ "")
    (h5 : env "TO_EMAIL" = "") :
    newSmtpConfig env = .ok ⟨env "SMTP_HOST", env "SMTP_PORT", env "SMTP_USER",
      env "SMTP_PASS", "contacto@softex-labs.xyz"⟩ := by
  simp [newSmtpConfig, h1, h2, h3, h4, h5]

/-- Witness for C10 at a concrete environment. -/
theorem newSmtpConfig_toEmail_fallback_witness :
    newSmtpConfig (fun k => if k = "TO_EMAIL" then "" else "x") =
      .ok ⟨"x", "x", "x", "x", "contacto@softex-labs.xyz"⟩ :=
  newSmtpConfig_toEmail_fallback _ (by decide) (by decide) (by decide)
    (by decide) (by decide)

/-- C8: with no configured webhook URL, `sendSlackNotification` issues no
request and returns nil; with a configured URL it POSTs the JSON payload,
whose channel is the fixed one and whose attachment carries the name, email,
client IP, timestamp and message fields. -/
theorem sendSlackNotification_spec (env : String → String) (data : ContactData)
    (clientIP : String) (nowFmt : String) (nowUnix : Nat)
    (postOutcome : Except String Nat) :
    (env "SLACK_WEBHOOK_URL" = "" →
      sendSlackNotification env data clientIP nowFmt nowUnix postOutcome =
        (.noop, none)) ∧
    (env "SLACK_WEBHOOK_URL" ≠ "" →
      ∃ msg : SlackMessage,
        sendSlackNotification env data clientIP nowFmt nowUnix postOutcome =
          (.post (env "SLACK_WEBHOOK_URL") "application/json" msg,
           match postOutcome with | .error e => some e | .ok _ => none) ∧
        msg.channel = "#contacto" ∧
        msg.attachments = [⟨"good", "Nuevo mensaje de contacto",
          "Se ha recibido un nuevo mensaje desde el sitio web",
          [⟨"Nombre", data.Name, true⟩, ⟨"Email", data.Email, true⟩,
           ⟨"IP", clientIP.data, true⟩, ⟨"Fecha", nowFmt.data, true⟩,
           ⟨"Mensaje", data.Message, false⟩], nowUnix⟩]) := by
  constructor
  · intro h
    simp [sendSlackNotification, h]
  · intro h
    refine ⟨⟨"#contacto", "Softex Labs Bot", ":email:",
      [⟨"good", "Nuevo mensaje de contacto",
        "Se ha recibido un nuevo mensaje desde el sitio web",
        [⟨"Nombre", data.Name, true⟩, ⟨"Email", data.Email, true⟩,
         ⟨"IP", clientIP.data, true⟩, ⟨"Fecha", nowFmt.data, true⟩,
         ⟨"Mensaje", data.Message, false⟩], nowUnix⟩]⟩, ?_, rfl, rfl⟩
    unfold sendSlackNotification
    rw [if_neg h]
    cases postOutcome <;> rfl

/-- Witness for C8: with an empty environment the notifier is a no-op. -/
theorem sendSlackNotification_spec_witness :
    sendSlackNotification (fun _ => "") ⟨[], [], []⟩ "" "" 0 (.ok 200) =
      (.noop, none) :=
  (sendSlackNotification_spec _ _ _ _ _ _).1 rfl

/-- C5: with a name and an email that pass their checks, a message whose
sanitized byte length is 9 fails validation with the too-short error, and a
message whose sanitized byte length is 10 passes validation entirely. -/
theorem validate_message_min_length (d : ContactData)
    (hn1 : sanitizeInput d.Name ≠ [])
    (hn2 : byteLen (sanitizeInput d.Name) ≤ MaxNameLength)
    (hn3 : (sanitizeInput d.Name).all isNameChar = true)
    (he1 : byteLen (sanitizeInput d.Email) ≤ MaxEmailLength)
    (he2 : emailMatch (sanitizeInput d.Email) = true) :
    (byteLen (sanitizeInput d.Message) = 9 →
      validateContactData d = some "el mensaje debe tener al menos 10 caracteres") ∧
    (byteLen (sanitizeInput d.Message) = 10 → validateContactData d = none) := by
  have he0 : sanitizeInput d.Email ≠ [] := by
    intro h
    rw [h] at he2
    exact absurd he2 (by decide)
  have hn2' : ¬ (MaxNameLength < byteLen (sanitizeInput d.Name)) := by omega
  have he1' : ¬ (MaxEmailLength < byteLen (sanitizeInput d.Email)) := by omega
  constructor <;> intro hm
  · have hm0 : sanitizeInput d.Message ≠ [] := by
      intro h
      rw [h] at hm
      exact absurd hm (by decide)
    simp [validateContactData, sanitizeData, hn1, hn2', hn3, he0, he1', he2,
      hm0, hm, MinMessageLength]
  · have hm0 : sanitizeInput d.Message ≠ [] := by
      intro h
      rw [h] at hm
      exact absurd hm (by decide)
    simp [validateContactData, sanitizeData, hn1, hn2', hn3, he0, he1', he2,
      hm0, hm, MinMessageLength, MaxMessageLength]

/-- Witness for C5 at a concrete nine-byte message. -/
theorem validate_message_min_length_witness :
    validateContactData ⟨"Juan".data, "a@b.co".data, "123456789".data⟩ =
      some "el mensaje debe tener al menos 10 caracteres" :=
  (validate_message_min_length _ (by decide) (by decide) (by decide)
    (by decide) (by decide)).1 (by decide)

theorem validateContactData_none_checks {d : ContactData}
    (h : validateContactData d = none) :
    sanitizeInput d.Name ≠ [] ∧ byteLen (sanitizeInput d.Name) ≤ MaxNameLength ∧
    (sanitizeInput d.Name).all isNameChar = true ∧
    sanitizeInput d.Email ≠ [] ∧ byteLen (sanitizeInput d.Email) ≤ MaxEmailLength ∧
    emailMatch (sanitizeInput d.Email) = true ∧
    sanitizeInput d.Message ≠ [] ∧
    MinMessageLength ≤ byteLen (sanitizeInput d.Message) ∧
    byteLen (sanitizeInput d.Message) ≤ MaxMessageLength := by
  unfold validateContactData at h
  repeat' split at h
  all_goals simp_all [sanitizeData]

theorem validateContactData_ne_none_of_missing {d : ContactData}
    (h : d.Name = [] ∨ d.Email = [] ∨ d.Message = []) :
    validateContactData d ≠ none := by
  intro hv
  have hc := validateContactData_none_checks hv
  have h0 : sanitizeInput ([] : List Char) = [] := rfl
  rcases h with h | h | h
  · exact hc.1 (by rw [h, h0])
  · exact hc.2.2.2.1 (by rw [h, h0])
  · exact hc.2.2.2.2.2.2.1 (by rw [h, h0])

/-- C3: a POST whose origin passes the CORS check and whose client IP is not
rate-limited, carrying a decoded body with an empty name, email or message,
is answered with status 400 and `smtp.SendMail` is never reached. -/
theorem handler_missing_field_400 (env : String → String) (st : RateState)
    (now : Nat) (ts : String) (req : Request) (smtpSendOk : Bool)
    (raw : ContactData)
    (hm : req.method = "POST")
    (ho : req.origin = "" ∨ req.origin = allowedOriginOf env ∨
      allowedOriginOf env = "*")
    (hrl : (checkRateLimit st req.clientIP now).2 = none)
    (hb : req.body = some raw)
    (hmiss : raw.Name = [] ∨ raw.Email = [] ∨ raw.Message = []) :
    (Handler env st now ts req smtpSendOk).status = 400 ∧
    (Handler env st now ts req smtpSendOk).emailData = none := by
  obtain ⟨e, he⟩ :=
    Option.ne_none_iff_exists'.mp (validateContactData_ne_none_of_missing hmiss)
  have hcond : ¬(req.method ≠ "OPTIONS" ∧ req.origin ≠ "" ∧
      req.origin ≠ allowedOriginOf env ∧ allowedOriginOf env ≠ "*") := by
    rcases ho with h | h | h <;> simp [h]
  unfold Handler
  rw [if_neg hcond, hm, hrl, hb]
  simp [he]

/-- Witness for C3 at a concrete request with an empty name. -/
theorem handler_missing_field_400_witness :
    (Handler (fun _ => "") (fun _ => none) 0 "T"
      ⟨"POST", "", some ⟨[], "a@b.co".data, "1234567890".data⟩, "ip"⟩ true).status
        = 400 ∧
    (Handler (fun _ => "") (fun _ => none) 0 "T"
      ⟨"POST", "", some ⟨[], "a@b.co".data, "1234567890".data⟩, "ip"⟩ true).emailData
        = none :=
  handler_missing_field_400 _ _ _ _ _ _ _ rfl (.inl rfl) rfl rfl (.inl rfl)

/-- C9: any contact data handed to `sendEmail` by the handler is the
sanitized form of the decoded body and satisfies every validation check:
non-empty pattern-conforming name of at most 100 bytes, matching email of at
most 254 bytes, and a message of 10 to 2000 bytes. -/
theorem handler_email_data_validated (env : String → String) (st : RateState)
    (now : Nat) (ts : String) (req : Request) (smtpSendOk : Bool)
    (d : ContactData)
    (h : (Handler env st now ts req smtpSendOk).emailData = some d) :
    ∃ raw, req.body = some raw ∧ d = sanitizeData raw ∧
      d.Name ≠ [] ∧ byteLen d.Name ≤ MaxNameLength ∧
      d.Name.all isNameChar = true ∧
      d.Email ≠ [] ∧ byteLen d.Email ≤ MaxEmailLength ∧
      emailMatch d.Email = true ∧
      d.Message ≠ [] ∧ MinMessageLength ≤ byteLen d.Message ∧
      byteLen d.Message ≤ MaxMessageLength := by
  unfold Handler at h
  split at h
  · exact absurd h (by simp)
  split at h
  · exact absurd h (by simp)
  split at h
  · exact absurd h (by simp)
  split at h
  · exact absurd h (by simp)
  split at h
  · exact absurd h (by simp)
  rename_i raw hbody
  split at h
  · exact absurd h (by simp)
  rename_i hval
  split at h
  · exact absurd h (by simp)
  have hch := validateContactData_none_checks hval
  split at h
  all_goals
    simp only [Option.some.injEq] at h
    subst h
    exact ⟨raw, hbody, rfl, hch.1, hch.2.1, hch.2.2.1, hch.2.2.2.1,
      hch.2.2.2.2.1, hch.2.2.2.2.2.1, hch.2.2.2.2.2.2.1,
      hch.2.2.2.2.2.2.2.1, hch.2.2.2.2.2.2.2.2⟩

theorem checkRateLimit_none_eq (st : RateState) (ip : String) (now : Nat)
    (h : st ip = none) :
    checkRateLimit st ip now = (st.insert ip ⟨1, now, false⟩, none) := by
  unfold checkRateLimit
  rw [h]

theorem checkRateLimit_some_eq (st : RateState) (ip : String) (now : Nat)
    (v : RequestInfo) (h : st ip = some v) :
    checkRateLimit st ip now =
      if v.blocked ∧ now - v.lastSeen < blockDuration then (st, some blockedMsg)
      else if timeWindow < now - v.lastSeen then
        if rateLimit < 1 then (st.insert ip ⟨1, now, true⟩, some limitMsg)
        else (st.insert ip ⟨1, now, false⟩, none)
      else
        if rateLimit < v.count + 1 then
          (st.insert ip ⟨v.count + 1, now, true⟩, some limitMsg)
        else (st.insert ip ⟨v.count + 1, now, v.blocked⟩, none) := by
  unfold checkRateLimit
  rw [h]

theorem RateState.insert_self (st : RateState) (ip : String) (v : RequestInfo) :
    st.insert ip v ip = some v := by
  simp [RateState.insert]

/-- C6: the stored count of an IP never decreases across a check that falls
within the current window, and a check after the window has elapsed (and
outside an active block) resets the count to 1 and the window start to `now`
together, in the same atomic mutex-protected step (the whole transition is
one function application in this embedding). -/
theorem checkRateLimit_count_invariant (st : RateState) (ip : String)
    (now : Nat) (v : RequestInfo) (h : st ip = some v) :
    (now - v.lastSeen ≤ timeWindow →
      ∀ v', (checkRateLimit st ip now).1 ip = some v' → v.count ≤ v'.count) ∧
    (timeWindow < now - v.lastSeen →
      ¬(v.blocked = true ∧ now - v.lastSeen < blockDuration) →
      (checkRateLimit st ip now).1 ip = some ⟨1, now, false⟩) := by
  rw [checkRateLimit_some_eq st ip now v h]
  constructor
  · intro hw v' hv'
    by_cases h1 : v.blocked = true ∧ now - v.lastSeen < blockDuration
    · rw [if_pos h1] at hv'
      rw [show ((st, some blockedMsg) : RateState × Option String).1 = st from rfl,
        h] at hv'
      cases hv'
      exact Nat.le_refl _
    · rw [if_neg h1, if_neg (Nat.not_lt.mpr hw)] at hv'
      by_cases h3 : rateLimit < v.count + 1
      · rw [if_pos h3] at hv'
        rw [show ((st.insert ip ⟨v.count + 1, now, true⟩, some limitMsg) :
            RateState × Option String).1 = st.insert ip ⟨v.count + 1, now, true⟩
            from rfl, RateState.insert_self] at hv'
        cases hv'
        exact Nat.le_succ _
      · rw [if_neg h3] at hv'
        rw [show ((st.insert ip ⟨v.count + 1, now, v.blocked⟩, none) :
            RateState × Option String).1 = st.insert ip ⟨v.count + 1, now, v.blocked⟩
            from rfl, RateState.insert_self] at hv'
        cases hv'
        exact Nat.le_succ _
  · intro hw hnb
    rw [if_neg hnb, if_pos hw, if_neg (by decide)]
    exact RateState.insert_self _ _ _

/-- Witness for C6: an elapsed window resets a concrete entry to count 1. -/
theorem checkRateLimit_count_invariant_witness :
    (checkRateLimit (fun k => if k = "a" then some ⟨2, 0, false⟩ else none) "a"
      (timeWindow + 1)).1 "a" = some ⟨1, timeWindow + 1, false⟩ :=
  (checkRateLimit_count_invariant _ "a" (timeWindow + 1) ⟨2, 0, false⟩ rfl).2
    (by decide) (by decide)

/-- C1 counterexample: after four checks of the same IP within the window
the entry is blocked with `lastSeen = 3`; at time `3 + timeWindow + 5` more
than the window has elapsed since the last request, yet the next check of
that IP is still rejected (the 15-minute block is in force), contradicting
the claim that after the window the IP is allowed again. -/
theorem rateLimiter_after_window_still_blocked :
    (let s0 : RateState := fun _ => none
     let r1 := checkRateLimit s0 "a" 0
     let r2 := checkRateLimit r1.1 "a" 1
     let r3 := checkRateLimit r2.1 "a" 2
     let r4 := checkRateLimit r3.1 "a" 3
     let r5 := checkRateLimit r4.1 "a" (3 + timeWindow + 5)
     r1.2 = none ∧ r2.2 = none ∧ r3.2 = none ∧ r4.2 = some limitMsg ∧
       r4.1 "a" = some ⟨4, 3, true⟩ ∧ timeWindow < (3 + timeWindow + 5) - 3 ∧
       r5.2 = some blockedMsg) := by decide

/-- C1 amended: with limit 3 per 5-minute window, the fourth check of a
fresh IP, each within the window of the previous one, is rejected (and the
first three are allowed); after more than the window has elapsed since the
IP's last request the next request is allowed again, provided the IP is not
in the blocked state; a blocked IP is allowed again only once the 15-minute
block duration has elapsed since its last request. -/
theorem rateLimiter_window_behavior (st : RateState) (ip : String)
    (t1 t2 t3 t4 : Nat) (h0 : st ip = none)
    (g2 : t2 - t1 ≤ timeWindow) (g3 : t3 - t2 ≤ timeWindow)
    (g4 : t4 - t3 ≤ timeWindow) :
    ((checkRateLimit st ip t1).2 = none ∧
     (checkRateLimit (checkRateLimit st ip t1).1 ip t2).2 = none ∧
     (checkRateLimit (checkRateLimit (checkRateLimit st ip t1).1 ip t2).1
       ip t3).2 = none ∧
     (checkRateLimit (checkRateLimit (checkRateLimit
       (checkRateLimit st ip t1).1 ip t2).1 ip t3).1 ip t4).2 = some limitMsg) ∧
    (∀ st' v now, st' ip = some v → v.blocked = false →
      timeWindow < now - v.lastSeen → (checkRateLimit st' ip now).2 = none) ∧
    (∀ st' v now, st' ip = some v → blockDuration ≤ now - v.lastSeen →
      (checkRateLimit st' ip now).2 = none) := by
  have e1 : checkRateLimit st ip t1 = (st.insert ip ⟨1, t1, false⟩, none) :=
    checkRateLimit_none_eq st ip t1 h0
  have e2 : checkRateLimit (st.insert ip ⟨1, t1, false⟩) ip t2 =
      ((st.insert ip ⟨1, t1, false⟩).insert ip ⟨2, t2, false⟩, none) := by
    rw [checkRateLimit_some_eq _ ip t2 ⟨1, t1, false⟩ (RateState.insert_self _ _ _)]
    rw [if_neg (by simp), if_neg (Nat.not_lt.mpr g2),
      if_neg (Nat.not_lt.mpr (by decide : 1 + 1 ≤ rateLimit))]
  have e3 : checkRateLimit ((st.insert ip ⟨1, t1, false⟩).insert ip
      ⟨2, t2, false⟩) ip t3 =
      (((st.insert ip ⟨1, t1, false⟩).insert ip ⟨2, t2, false⟩).insert ip
        ⟨3, t3, false⟩, none) := by
    rw [checkRateLimit_some_eq _ ip t3 ⟨2, t2, false⟩ (RateState.insert_self _ _ _)]
    rw [if_neg (by simp), if_neg (Nat.not_lt.mpr g3),
      if_neg (Nat.not_lt.mpr (by decide : 2 + 1 ≤ rateLimit))]
  have e4 : checkRateLimit (((st.insert ip ⟨1, t1, false⟩).insert ip
      ⟨2, t2, false⟩).insert ip ⟨3, t3, false⟩) ip t4 =
      ((((st.insert ip ⟨1, t1, false⟩).insert ip ⟨2, t2, false⟩).insert ip
        ⟨3, t3, false⟩).insert ip ⟨4, t4, true⟩, some limitMsg) := by
    rw [checkRateLimit_some_eq _ ip t4 ⟨3, t3, false⟩ (RateState.insert_self _ _ _)]
    rw [if_neg (by simp), if_neg (Nat.not_lt.mpr g4),
      if_pos (show rateLimit < 3 + 1 by decide)]
  refine ⟨?_, ?_, ?_⟩
  · rw [e1]
    rw [show ((st.insert ip ⟨1, t1, false⟩, none) :
      RateState × Option String).1 = st.insert ip ⟨1, t1, false⟩ from rfl, e2]
    rw [show (((st.insert ip ⟨1, t1, false⟩).insert ip ⟨2, t2, false⟩, none) :
      RateState × Option String).1 =
      (st.insert ip ⟨1, t1, false⟩).insert ip ⟨2, t2, false⟩ from rfl, e3]
    rw [show ((((st.insert ip ⟨1, t1, false⟩).insert ip ⟨2, t2, false⟩).insert ip
      ⟨3, t3, false⟩, none) : RateState × Option String).1 =
      ((st.insert ip ⟨1, t1, false⟩).insert ip ⟨2, t2, false⟩).insert ip
        ⟨3, t3, false⟩ from rfl, e4]
    exact ⟨rfl, rfl, rfl, rfl⟩
  · intro st' v now h hb hw
    rw [checkRateLimit_some_eq st' ip now v h]
    rw [if_neg (by simp [hb]), if_pos hw, if_neg (by decide)]
  · intro st' v now h hd
    have htw : timeWindow < blockDuration := by decide
    have hw : timeWindow < now - v.lastSeen := Nat.lt_of_lt_of_le htw hd
    rw [checkRateLimit_some_eq st' ip now v h]
    rw [if_neg (fun hc => absurd hc.2 (Nat.not_lt.mpr hd)), if_pos hw,
      if_neg (by decide)]

/-- Witness for the amended C1 theorem: a concrete fresh IP checked four
times in a row is rejected on the fourth check. -/
theorem rateLimiter_window_behavior_witness :
    (checkRateLimit (checkRateLimit (checkRateLimit
      (checkRateLimit (fun _ => none) "a" 0).1 "a" 0).1 "a" 0).1 "a" 0).2 =
      some limitMsg :=
  ((rateLimiter_window_behavior (fun _ => none) "a" 0 0 0 0 rfl (by decide)
    (by decide) (by decide)).1).2.2.2

/-- Witness for C9 at a concrete successful submission. -/
theorem handler_email_data_validated_witness :
    ∃ raw, (some ⟨"Juan".data, "a@b.co".data, "1234567890".data⟩ :
        Option ContactData) = some raw ∧
      (⟨"Juan".data, "a@b.co".data, "1234567890".data⟩ : ContactData) =
        sanitizeData raw ∧
      ("Juan".data : List Char) ≠ [] ∧ byteLen "Juan".data ≤ MaxNameLength ∧
      "Juan".data.all isNameChar = true ∧
      ("a@b.co".data : List Char) ≠ [] ∧ byteLen "a@b.co".data ≤ MaxEmailLength ∧
      emailMatch "a@b.co".data = true ∧
      ("1234567890".data : List Char) ≠ [] ∧
      MinMessageLength ≤ byteLen "1234567890".data ∧
      byteLen "1234567890".data ≤ MaxMessageLength :=
  handler_email_data_validated (fun _ => "x") (fun _ => none) 0 "T"
    ⟨"POST", "", some ⟨"Juan".data, "a@b.co".data, "1234567890".data⟩, "ip"⟩
    true ⟨"Juan".data, "a@b.co".data, "1234567890".data⟩ (by decide)

/-- C4 counterexample: the legacy main.go dev server also serves
/api/contact, and its handler answers an OPTIONS request with 405, not 200,
because it has no preflight branch and rejects every non-POST method. -/
theorem mainGo_options_rejected :
    (MainGo.contactHandler ⟨"OPTIONS", true, true, "n", "e", "m"⟩
      true true true).1 = 405 ∧ (405 : Nat) ≠ 200 := by
  constructor
  · rfl
  · decide

/-- C4 amended: every OPTIONS request handled by the serverless api Handler
receives status 200, with no body and no delivery attempt, for every
environment, rate-limiter state, request body and validation outcome; the
legacy main.go dev-server handler for the same route instead answers
OPTIONS with 405. -/
theorem handler_options_always_200 (env : String → String) (st : RateState)
    (now : Nat) (ts : String) (req : Request) (smtpSendOk : Bool)
    (hm : req.method = "OPTIONS") :
    (Handler env st now ts req smtpSendOk).status = 200 ∧
    (Handler env st now ts req smtpSendOk).body = none ∧
    (Handler env st now ts req smtpSendOk).emailData = none := by
  unfold Handler
  rw [hm]
  simp

/-- Witness for the amended C4 theorem at a concrete preflight request. -/
theorem handler_options_always_200_witness :
    (Handler (fun _ => "") (fun _ => none) 0 "T" ⟨"OPTIONS", "", none, "ip"⟩
      true).status = 200 :=
  (handler_options_always_200 (fun _ => "") (fun _ => none) 0 "T"
    ⟨"OPTIONS", "", none, "ip"⟩ true rfl).1

theorem Json.lookup_head (k : String) (v : Json) (rest : List (String × Json)) :
    (Json.obj ((k, v) :: rest)).lookup k = some v := by
  simp [Json.lookup, List.lookup]

/-- C7 counterexample: the 405 response of the api Handler (and likewise
every error response of that handler) is not the JSON object with the single
field error: its body also carries status and timestamp fields. -/
theorem errorBody_not_exactly_error_object :
    ¬ ∃ s, (Handler (fun _ => "") (fun _ => none) 0 "T"
      ⟨"GET", "", none, "ip"⟩ true).body = some (Json.obj [("error", Json.str s)]) := by
  intro hex
  obtain ⟨s, hs⟩ := hex
  have hb : (Handler (fun _ => "") (fun _ => none) 0 "T"
      ⟨"GET", "", none, "ip"⟩ true).body =
      some (sendJSONError "Método no permitido. Solo se acepta POST." 405 "T") := rfl
  rw [hb] at hs
  simp [sendJSONError] at hs

/-- C7 amended: every error response of the contact endpoint has a JSON
object body containing a field error with a string value (in the current api
Handler alongside status and timestamp fields; in the legacy main.go handler
the body is exactly the one-field object), and every non-preflight success
response body contains a field message with a string value. -/
theorem error_bodies_carry_error_field :
    (∀ env st now ts req smtpSendOk,
      ((Handler env st now ts req smtpSendOk).status ≠ 200 →
        ∃ s b, (Handler env st now ts req smtpSendOk).body = some b ∧
          b.lookup "error" = some (.str s)) ∧
      ((Handler env st now ts req smtpSendOk).status = 200 →
        req.method ≠ "OPTIONS" →
        ∃ s b, (Handler env st now ts req smtpSendOk).body = some b ∧
          b.lookup "message" = some (.str s))) ∧
    (∀ req limiterAllow smtpConfigured smtpSendOk,
      ((MainGo.contactHandler req limiterAllow smtpConfigured smtpSendOk).1 ≠ 200 →
        ∃ s, (MainGo.contactHandler req limiterAllow smtpConfigured
          smtpSendOk).2.lookup "error" = some (.str s)) ∧
      ((MainGo.contactHandler req limiterAllow smtpConfigured smtpSendOk).1 = 200 →
        ∃ s, (MainGo.contactHandler req limiterAllow smtpConfigured
          smtpSendOk).2.lookup "message" = some (.str s))) := by
  constructor
  · intro env st now ts req smtpSendOk
    unfold Handler
    repeat' split
    all_goals constructor
    all_goals first
      | (intro h; exact absurd rfl h)
      | (intro _ _; exact ⟨_, _, rfl, Json.lookup_head _ _ _⟩)
      | (intro _ hopt; refine absurd ?_ hopt; assumption)
      | (intro _; exact ⟨_, _, rfl, Json.lookup_head _ _ _⟩)
      | (intro h; simp at h)
  · intro req limiterAllow smtpConfigured smtpSendOk
    unfold MainGo.contactHandler
    repeat' split
    all_goals constructor
    all_goals first
      | (intro h; exact absurd rfl h)
      | (intro _; exact ⟨_, Json.lookup_head _ _ _⟩)
      | (intro h; simp at h)

/-- Witness for the amended C7 theorem: the concrete 405 response carries an
error field. -/
theorem error_bodies_carry_error_field_witness :
    ∃ s b, (Handler (fun _ => "") (fun _ => none) 0 "T"
      ⟨"GET", "", none, "ip"⟩ true).body = some b ∧
      b.lookup "error" = some (.str s) :=
  (error_bodies_carry_error_field.1 (fun _ => "") (fun _ => none) 0 "T"
    ⟨"GET", "", none, "ip"⟩ true).1 (by decide)
